import Mathlib

/-!
Shallow embedding of the SDL presentation/input adapter of the STC falling-block
game (`src/sdl/sdl_game.cpp`).  Side-effecting SDL calls are modelled as values
of an operation type; each C++ routine becomes a Lean function returning the
list of operations it issues, in program order.  Machine integers (`int`,
`long`) are modelled as `Int`, with C truncated division and remainder
(`Int.tdiv`, `Int.tmod`) where the code divides.
-/

namespace Stc

/-- Modelled from the spec: the numeric values of the layout constants of
`sdl_game.hpp` (tile size, atlas glyph size, screen anchors, HUD field widths,
idle delay) are not part of the sources given; the spec only states that they
are fixed constants.  Concrete values are chosen here; no claim below depends
on the particular numbers. -/
def TILE_SIZE : Int := 12

def NUMBER_WIDTH : Int := 7

def NUMBER_HEIGHT : Int := 9

def SLEEP_TIME : Nat := 40

def BOARD_X : Int := 180

def BOARD_Y : Int := 4

def PREVIEW_X : Int := 112

def PREVIEW_Y : Int := 210

def LEVEL_X : Int := 34

def LEVEL_Y : Int := 82

def LEVEL_LENGTH : Int := 2

def LINES_X : Int := 34

def LINES_Y : Int := 146

def LINES_LENGTH : Int := 5

def SCORE_X : Int := 34

def SCORE_Y : Int := 210

def SCORE_LENGTH : Int := 10

def TETROMINO_X : Int := 312

def TETROMINO_L_Y : Int := 53

def TETROMINO_I_Y : Int := 77

def TETROMINO_T_Y : Int := 101

def TETROMINO_S_Y : Int := 125

def TETROMINO_Z_Y : Int := 149

def TETROMINO_O_Y : Int := 173

def TETROMINO_J_Y : Int := 197

def TETROMINO_LENGTH : Int := 2

def PIECES_X : Int := 301

def PIECES_Y : Int := 221

def PIECES_LENGTH : Int := 5

/-- Modelled from the spec: the Engine-side constants of `game.hpp` (board
tilemap extent, tetromino grid size, the EMPTY sentinel, HUD color band
identifiers).  The spec fixes their existence, not their values; the values
chosen here do not decide any claim. -/
def TETROMINO_SIZE : Nat := 4

def BOARD_TILEMAP_WIDTH : Nat := 10

def BOARD_TILEMAP_HEIGHT : Nat := 22

def EMPTY_CELL : Int := -1

def COLOR_CYAN : Int := 0

def COLOR_RED : Int := 1

def COLOR_BLUE : Int := 2

def COLOR_ORANGE : Int := 3

def COLOR_YELLOW : Int := 4

def COLOR_PURPLE : Int := 5

def COLOR_GREEN : Int := 6

def COLOR_WHITE : Int := 7

/-- Modelled from the spec: the error statuses of `Game` (`game.hpp` is not in
the sources; `sdl_game.cpp` returns these four named constants).  They form a
closed set of distinct values. -/
inductive ErrorCode
  | ERROR_NONE
  | ERROR_PLATFORM
  | ERROR_NO_VIDEO
  | ERROR_NO_IMAGES
  deriving DecidableEq

/-- One observable step performed by `PlatformSdl::init`, in program order. -/
inductive InitStep
  | seedRandom
  | sdlInit
  | setVideoMode
  | setCaption
  | loadTiles
  | loadBack
  | loadNumbers
  | openAudio
  | loadMusic
  | loadSoundLine
  | loadSoundDrop
  | playMusic
  deriving DecidableEq

/-- The environment an `init` run sees: which fallible platform call succeeds.
The three audio-asset fields model whether `Mix_LoadMUS` / `Mix_LoadWAV`
return a non-null handle; note that `PlatformSdl::init` never inspects those
handles. -/
structure InitEnv where
  sdlInitOk : Bool
  videoOk : Bool
  tilesOk : Bool
  backOk : Bool
  numbersOk : Bool
  mixerOk : Bool
  musicOk : Bool
  soundLineOk : Bool
  soundDropOk : Bool

/-- `PlatformSdl::init` (sdl_game.cpp lines 21-76): seeds the RNG, starts the
video+audio subsystems, creates the surface, sets the caption, decodes the
three atlas images (all three loads run before the single null check), opens
the mixer, loads the music and the two sound effects (their results are never
checked), and starts the music loop.  Returns the executed step trace and the
status code. -/
def init (e : InitEnv) : List InitStep × ErrorCode :=
  if !e.sdlInitOk then
    ([InitStep.seedRandom, InitStep.sdlInit], ErrorCode.ERROR_PLATFORM)
  else if !e.videoOk then
    ([InitStep.seedRandom, InitStep.sdlInit, InitStep.setVideoMode],
      ErrorCode.ERROR_NO_VIDEO)
  else if !(e.tilesOk && e.backOk && e.numbersOk) then
    ([InitStep.seedRandom, InitStep.sdlInit, InitStep.setVideoMode,
       InitStep.setCaption, InitStep.loadTiles, InitStep.loadBack,
       InitStep.loadNumbers],
      ErrorCode.ERROR_NO_IMAGES)
  else if !e.mixerOk then
    ([InitStep.seedRandom, InitStep.sdlInit, InitStep.setVideoMode,
       InitStep.setCaption, InitStep.loadTiles, InitStep.loadBack,
       InitStep.loadNumbers, InitStep.openAudio],
      ErrorCode.ERROR_PLATFORM)
  else
    ([InitStep.seedRandom, InitStep.sdlInit, InitStep.setVideoMode,
       InitStep.setCaption, InitStep.loadTiles, InitStep.loadBack,
       InitStep.loadNumbers, InitStep.openAudio, InitStep.loadMusic,
       InitStep.loadSoundLine, InitStep.loadSoundDrop, InitStep.playMusic],
      ErrorCode.ERROR_NONE)

/-- An SDL rectangle (`SDL_Rect`). -/
structure Rect where
  x : Int
  y : Int
  w : Int
  h : Int
  deriving DecidableEq

/-- One observable rendering-side SDL call.  `blitTiles` / `blitNumbers` are
`SDL_BlitSurface` from the tile / digit atlas with the given source rectangle
and destination position; `blitBack` is the full-background blit with null
rectangles; `flip` is `SDL_Flip`; `delay` is `SDL_Delay`. -/
inductive RenderOp
  | blitTiles (src : Rect) (dstX dstY : Int)
  | blitBack
  | blitNumbers (src : Rect) (dstX dstY : Int)
  | onChangeProcessed
  | flip
  | delay (ms : Nat)
  deriving DecidableEq

/-- Whether an operation copies pixels onto the Surface. -/
def RenderOp.isBlit : RenderOp → Bool
  | RenderOp.blitTiles _ _ _ => true
  | RenderOp.blitBack => true
  | RenderOp.blitNumbers _ _ _ => true
  | _ => false

/-- Whether an operation is the buffer flip. -/
def RenderOp.isFlip : RenderOp → Bool
  | RenderOp.flip => true
  | _ => false

/-- Whether an operation is the `onChangeProcessed` acknowledgment. -/
def RenderOp.isAck : RenderOp → Bool
  | RenderOp.onChangeProcessed => true
  | _ => false

/-- Whether an operation is the fixed-duration sleep. -/
def RenderOp.isDelay : RenderOp → Bool
  | RenderOp.delay _ => true
  | _ => false

/-- Source rectangle computed by `PlatformSdl::drawTile`: x is
`TILE_SIZE * tile`, y is `(TILE_SIZE + 1) * (shadow ? 1 : 0)`, and width and
height are `TILE_SIZE + 1`. -/
def tileSrcRect (tile : Int) (shadow : Bool) : Rect :=
  ⟨TILE_SIZE * tile, (TILE_SIZE + 1) * (if shadow then 1 else 0),
    TILE_SIZE + 1, TILE_SIZE + 1⟩

/-- `PlatformSdl::drawTile` (lines 174-186): issues exactly one blit from the
tile atlas to destination `(x, y)`. -/
def drawTile (x y tile : Int) (shadow : Bool) : List RenderOp :=
  [RenderOp.blitTiles (tileSrcRect tile shadow) x y]

/-- The do-while loop of `PlatformSdl::drawNumber` (lines 199-206), entered
with loop counter `pos`: blits the glyph of `number % 10` at
`x + NUMBER_WIDTH * (length - pos)`, then divides `number` by 10 and repeats
while `++pos < length`.  C truncated `%` and `/` are `Int.tmod` and
`Int.tdiv`. -/
def drawNumberLoop (x y number length color pos : Int) : List RenderOp :=
  RenderOp.blitNumbers
      ⟨NUMBER_WIDTH * number.tmod 10, NUMBER_HEIGHT * color,
        NUMBER_WIDTH, NUMBER_HEIGHT⟩
      (x + NUMBER_WIDTH * (length - pos)) y ::
    (if h : pos + 1 < length then
      drawNumberLoop x y (number.tdiv 10) length color (pos + 1)
    else [])
termination_by (length - pos).toNat
decreasing_by omega

/-- `PlatformSdl::drawNumber` (lines 189-207): runs the digit loop starting at
`pos = 0`. -/
def drawNumber (x y number length color : Int) : List RenderOp :=
  drawNumberLoop x y number length color 0

/-- A tetromino cell grid with its board position (`Game::fallingBlock()` /
`Game::nextBlock()`): `cells i j` is the tile identifier at column `i`,
row `j`, or `EMPTY_CELL`. -/
structure Block where
  cells : Nat → Nat → Int
  x : Int
  y : Int

/-- The seven tetromino shape identifiers (`Game::TETROMINO_*`). -/
inductive Tetromino
  | I
  | O
  | T
  | S
  | Z
  | J
  | L
  deriving DecidableEq

/-- The Engine statistics record (`Game::stats()`). -/
structure Stats where
  level : Int
  lines : Int
  score : Int
  totalPieces : Int
  pieces : Tetromino → Int

/-- The Engine state visible to the adapter through its query interface, as
read by one `renderGame` invocation. -/
structure GameState where
  hasChanged : Bool
  showPreview : Bool
  showShadow : Bool
  shadowGap : Int
  nextBlock : Block
  fallingBlock : Block
  getCell : Nat → Nat → Int
  isPaused : Bool
  stats : Stats

/-- A C `for (k = 0; k < n; ++k)` loop that emits operations per iteration. -/
def forLoop (n : Nat) (f : Nat → List RenderOp) : List RenderOp :=
  (List.range n).flatMap f

/-- Preview-block pass of `renderGame` (lines 221-235). -/
def previewOps (g : GameState) : List RenderOp :=
  forLoop TETROMINO_SIZE fun i =>
    forLoop TETROMINO_SIZE fun j =>
      if g.nextBlock.cells i j ≠ EMPTY_CELL then
        drawTile (PREVIEW_X + TILE_SIZE * (i : Int))
          (PREVIEW_Y + TILE_SIZE * (j : Int)) (g.nextBlock.cells i j) false
      else []

/-- Shadow-tetromino pass of `renderGame` (lines 236-253, the
`STC_SHOW_GHOST_PIECE` block).  Modelled from the spec: the build
configuration is not in the sources; the spec includes ghost-piece rendering,
so the conditionally-compiled block is taken as present. -/
def ghostOps (g : GameState) : List RenderOp :=
  forLoop TETROMINO_SIZE fun i =>
    forLoop TETROMINO_SIZE fun j =>
      if g.fallingBlock.cells i j ≠ EMPTY_CELL then
        drawTile (BOARD_X + TILE_SIZE * (g.fallingBlock.x + (i : Int)))
          (BOARD_Y + TILE_SIZE * (g.fallingBlock.y + g.shadowGap + (j : Int)))
          (g.fallingBlock.cells i j) true
      else []

/-- Board pass of `renderGame` (lines 254-266). -/
def boardOps (g : GameState) : List RenderOp :=
  forLoop BOARD_TILEMAP_WIDTH fun i =>
    forLoop BOARD_TILEMAP_HEIGHT fun j =>
      if g.getCell i j ≠ EMPTY_CELL then
        drawTile (BOARD_X + TILE_SIZE * (i : Int))
          (BOARD_Y + TILE_SIZE * (j : Int)) (g.getCell i j) false
      else []

/-- Falling-tetromino pass of `renderGame` (lines 268-280). -/
def fallingOps (g : GameState) : List RenderOp :=
  forLoop TETROMINO_SIZE fun i =>
    forLoop TETROMINO_SIZE fun j =>
      if g.fallingBlock.cells i j ≠ EMPTY_CELL then
        drawTile (BOARD_X + TILE_SIZE * (g.fallingBlock.x + (i : Int)))
          (BOARD_Y + TILE_SIZE * (g.fallingBlock.y + (j : Int)))
          (g.fallingBlock.cells i j) false
      else []

/-- HUD pass of `renderGame` (lines 283-298), drawn when the game is not
paused. -/
def hudOps (g : GameState) : List RenderOp :=
  drawNumber LEVEL_X LEVEL_Y g.stats.level LEVEL_LENGTH COLOR_WHITE ++
  drawNumber LINES_X LINES_Y g.stats.lines LINES_LENGTH COLOR_WHITE ++
  drawNumber SCORE_X SCORE_Y g.stats.score SCORE_LENGTH COLOR_WHITE ++
  drawNumber TETROMINO_X TETROMINO_L_Y (g.stats.pieces Tetromino.L)
    TETROMINO_LENGTH COLOR_ORANGE ++
  drawNumber TETROMINO_X TETROMINO_I_Y (g.stats.pieces Tetromino.I)
    TETROMINO_LENGTH COLOR_CYAN ++
  drawNumber TETROMINO_X TETROMINO_T_Y (g.stats.pieces Tetromino.T)
    TETROMINO_LENGTH COLOR_PURPLE ++
  drawNumber TETROMINO_X TETROMINO_S_Y (g.stats.pieces Tetromino.S)
    TETROMINO_LENGTH COLOR_GREEN ++
  drawNumber TETROMINO_X TETROMINO_Z_Y (g.stats.pieces Tetromino.Z)
    TETROMINO_LENGTH COLOR_RED ++
  drawNumber TETROMINO_X TETROMINO_O_Y (g.stats.pieces Tetromino.O)
    TETROMINO_LENGTH COLOR_YELLOW ++
  drawNumber TETROMINO_X TETROMINO_J_Y (g.stats.pieces Tetromino.J)
    TETROMINO_LENGTH COLOR_BLUE ++
  drawNumber PIECES_X PIECES_Y g.stats.totalPieces PIECES_LENGTH COLOR_WHITE

/-- `PlatformSdl::renderGame` (lines 210-309): if the Engine reports a change,
draws background, preview (if enabled), ghost piece (if enabled and the gap is
positive), board, falling piece, and HUD numbers (if not paused), then calls
`onChangeProcessed` and flips; in every case it ends with the fixed sleep. -/
def renderGame (g : GameState) : List RenderOp :=
  (if g.hasChanged then
    [RenderOp.blitBack] ++
    (if g.showPreview then previewOps g else []) ++
    (if g.showShadow ∧ 0 < g.shadowGap then ghostOps g else []) ++
    boardOps g ++ fallingOps g ++
    (if g.isPaused then [] else hudOps g) ++
    [RenderOp.onChangeProcessed, RenderOp.flip]
  else []) ++ [RenderOp.delay SLEEP_TIME]

/-- The drawing prefix of a changed-state `renderGame` pass. -/
def drawPrefix (g : GameState) : List RenderOp :=
  [RenderOp.blitBack] ++
  (if g.showPreview then previewOps g else []) ++
  (if g.showShadow ∧ 0 < g.shadowGap then ghostOps g else []) ++
  boardOps g ++ fallingOps g ++
  (if g.isPaused then [] else hudOps g)

/-- The raw keys distinguished by the `processEvents` switch; `unmapped`
stands for any other `SDLK_*` symbol (the `default` branch). -/
inductive Key
  | escape
  | s
  | down
  | w
  | up
  | a
  | left
  | d
  | right
  | space
  | f5
  | f1
  | f2
  | f3
  | unmapped
  deriving DecidableEq

/-- One raw record drained from the SDL event queue: `SDL_QUIT`,
`SDL_KEYDOWN`, `SDL_KEYUP`, or any other event type (the outer `default`
branch). -/
inductive RawEvent
  | quit
  | keyDown (k : Key)
  | keyUp (k : Key)
  | otherEvent
  deriving DecidableEq

/-- The semantic event vocabulary (`Game::EVENT_*`). -/
inductive EventType
  | EVENT_QUIT
  | EVENT_MOVE_DOWN
  | EVENT_ROTATE_CW
  | EVENT_MOVE_LEFT
  | EVENT_MOVE_RIGHT
  | EVENT_DROP
  | EVENT_RESTART
  | EVENT_PAUSE
  | EVENT_SHOW_NEXT
  | EVENT_SHOW_SHADOW
  deriving DecidableEq

/-- A call delivered to the Engine by the input mapper. -/
inductive GameCall
  | onEventStart (e : EventType)
  | onEventEnd (e : EventType)
  deriving DecidableEq

/-- Dispatch of one drained record (the switch of `PlatformSdl::processEvents`,
lines 90-170).  The `SDLK_F3` key-down case is compiled under
`STC_SHOW_GHOST_PIECE` (taken as present, as for `ghostOps`); the
`STC_AUTO_ROTATION` key-up block is taken as absent, matching the spec, which
lists auto-repeat rotation only as an optional configuration. -/
def processEvent : RawEvent → List GameCall
  | RawEvent.quit => [GameCall.onEventStart EventType.EVENT_QUIT]
  | RawEvent.keyDown k =>
    match k with
    | Key.escape => [GameCall.onEventStart EventType.EVENT_QUIT]
    | Key.s | Key.down => [GameCall.onEventStart EventType.EVENT_MOVE_DOWN]
    | Key.w | Key.up => [GameCall.onEventStart EventType.EVENT_ROTATE_CW]
    | Key.a | Key.left => [GameCall.onEventStart EventType.EVENT_MOVE_LEFT]
    | Key.d | Key.right => [GameCall.onEventStart EventType.EVENT_MOVE_RIGHT]
    | Key.space => [GameCall.onEventStart EventType.EVENT_DROP]
    | Key.f5 => [GameCall.onEventStart EventType.EVENT_RESTART]
    | Key.f1 => [GameCall.onEventStart EventType.EVENT_PAUSE]
    | Key.f2 => [GameCall.onEventStart EventType.EVENT_SHOW_NEXT]
    | Key.f3 => [GameCall.onEventStart EventType.EVENT_SHOW_SHADOW]
    | Key.unmapped => []
  | RawEvent.keyUp k =>
    match k with
    | Key.s | Key.down => [GameCall.onEventEnd EventType.EVENT_MOVE_DOWN]
    | Key.a | Key.left => [GameCall.onEventEnd EventType.EVENT_MOVE_LEFT]
    | Key.d | Key.right => [GameCall.onEventEnd EventType.EVENT_MOVE_RIGHT]
    | _ => []
  | RawEvent.otherEvent => []

/-- `PlatformSdl::processEvents` (lines 85-171): drains the pending records in
arrival order and dispatches each. -/
def processEvents (evs : List RawEvent) : List GameCall :=
  evs.flatMap processEvent

/-- A block whose sixteen cells are all empty, for concrete test states. -/
def emptyBlock : Block :=
  ⟨fun _ _ => EMPTY_CELL, 0, 0⟩

/-- Concrete statistics record for test states. -/
def sampleStats : Stats :=
  ⟨1, 0, 0, 0, fun _ => 0⟩

/-- A concrete Engine state reporting no pending change. -/
def sampleIdle : GameState :=
  ⟨false, true, true, 1, emptyBlock, emptyBlock, fun _ _ => EMPTY_CELL,
    false, sampleStats⟩

/-- A concrete Engine state reporting a pending change (paused, so the HUD
pass is skipped). -/
def sampleActive : GameState :=
  ⟨true, true, true, 1, emptyBlock, emptyBlock, fun _ _ => EMPTY_CELL,
    true, sampleStats⟩

/-- Every platform call succeeding except the music and sound-effect loads. -/
def envAudioFail : InitEnv :=
  ⟨true, true, true, true, true, true, false, false, false⟩

/-- Every platform call succeeding except `Mix_OpenAudio`. -/
def envMixerFail : InitEnv :=
  ⟨true, true, true, true, true, false, true, true, true⟩

/-- `SDL_Init` itself failing. -/
def envSdlFail : InitEnv :=
  ⟨false, true, true, true, true, true, true, true, true⟩

end Stc

namespace Stc

/-- Truncated division of nonnegative numerals agrees with `Nat` division. -/
theorem natCast_tdiv (m n : Nat) :
    ((m : Int)).tdiv ((n : Int)) = ((m / n : Nat) : Int) := rfl

/-- C truncated division by two nonnegative divisors composes into division by
their product. -/
theorem tdiv_tdiv_natCast (a : Int) (b c : Nat) :
    (a.tdiv ((b : Int))).tdiv ((c : Int)) = a.tdiv (((b * c : Nat) : Int)) := by
  cases a with
  | ofNat m =>
    have h : (Int.ofNat m) = ((m : Nat) : Int) := rfl
    rw [h, natCast_tdiv, natCast_tdiv, natCast_tdiv, Nat.div_div_eq_div_mul]
  | negSucc m =>
    have h1 : (Int.negSucc m) = -(((m + 1 : Nat)) : Int) := rfl
    rw [h1, Int.neg_tdiv, Int.neg_tdiv, Int.neg_tdiv, natCast_tdiv,
      natCast_tdiv, natCast_tdiv, Nat.div_div_eq_div_mul]

/-- Dividing once by a nonnegative base and then by its `k`-th power is
dividing by its `(k + 1)`-st power, in C truncated semantics. -/
theorem tdiv_pow_succ (a : Int) (b k : Nat) :
    (a.tdiv ((b : Int))).tdiv (((b : Int)) ^ k) = a.tdiv ((b : Int) ^ (k + 1)) := by
  have h1 : ((b : Int) ^ k) = ((b ^ k : Nat) : Int) := by
    push_cast
    ring
  have h3 : ((b : Int) ^ (k + 1)) = (((b * b ^ k : Nat)) : Int) := by
    push_cast
    ring
  rw [h1, h3, tdiv_tdiv_natCast]

/-- Dividing once by 10 and then by `10 ^ k` is dividing by `10 ^ (k + 1)`,
in C truncated semantics. -/
theorem tdiv_ten_pow (n : Int) (k : Nat) :
    (n.tdiv 10).tdiv ((10 : Int) ^ k) = n.tdiv ((10 : Int) ^ (k + 1)) := by
  have h := tdiv_pow_succ n 10 k
  norm_num at h
  exact h

/-- The digit loop of `drawNumber`, entered at counter `pos` with
`(length - pos).toNat = m`, emits one glyph blit per iteration: the `k`-th
one carries the digit `(number / 10 ^ k) % 10` (truncated semantics) at
`x + NUMBER_WIDTH * (length - pos - k)`, for `max m 1` iterations. -/
theorem drawNumberLoop_eq_map (x y c : Int) :
    ∀ (m : Nat) (n length pos : Int), (length - pos).toNat = m →
      drawNumberLoop x y n length c pos =
        (List.range (max m 1)).map (fun (k : Nat) =>
          RenderOp.blitNumbers
            ⟨NUMBER_WIDTH * ((n.tdiv ((10 : Int) ^ k)).tmod 10),
              NUMBER_HEIGHT * c, NUMBER_WIDTH, NUMBER_HEIGHT⟩
            (x + NUMBER_WIDTH * (length - pos - ((k : Nat) : Int))) y) := by
  intro m
  induction m with
  | zero =>
    intro n length pos hm
    have hcond : ¬ (pos + 1 < length) := by omega
    rw [drawNumberLoop, dif_neg hcond]
    have hr : List.range 1 = [0] := rfl
    simp [hr, Int.tdiv_one]
  | succ m ih =>
    intro n length pos hm
    by_cases hcond : pos + 1 < length
    · have hm1 : 1 ≤ m := by omega
      have hmax : max (m + 1) 1 = m + 1 := by omega
      have hmax2 : max m 1 = m := by omega
      rw [drawNumberLoop, dif_pos hcond,
        ih (n.tdiv 10) length (pos + 1) (by omega), hmax, hmax2,
        List.range_succ_eq_map, List.map_cons, List.map_map]
      refine List.cons_eq_cons.mpr ⟨?_, ?_⟩
      · simp [Int.tdiv_one]
      · refine List.map_congr_left ?_
        intro k hk
        simp only [Function.comp_apply]
        rw [tdiv_ten_pow]
        congr 1
        push_cast
        ring
    · have hm0 : m = 0 := by omega
      subst hm0
      rw [drawNumberLoop, dif_neg hcond]
      have hr : List.range 1 = [0] := rfl
      simp [hr, Int.tdiv_one]

/-- `drawNumber` emits one glyph blit per iteration of its do-while: the
`k`-th blit carries digit `(number / 10 ^ k) % 10` at
`x + NUMBER_WIDTH * (length - k)`, and the loop runs `max length 1` times. -/
theorem drawNumber_eq_map (x y n len c : Int) :
    drawNumber x y n len c =
      (List.range (max len.toNat 1)).map (fun (k : Nat) =>
        RenderOp.blitNumbers
          ⟨NUMBER_WIDTH * ((n.tdiv ((10 : Int) ^ k)).tmod 10),
            NUMBER_HEIGHT * c, NUMBER_WIDTH, NUMBER_HEIGHT⟩
          (x + NUMBER_WIDTH * (len - ((k : Nat) : Int))) y) := by
  have h := drawNumberLoop_eq_map x y c (len - 0).toNat n len 0 rfl
  simpa using h

/-- C3 (counterexample): as stated, the claim fails for degenerate field
widths: `drawNumber` with `length = 0` still issues one glyph blit, not
zero, because the loop body runs before the count is tested. -/
theorem drawNumber_length_zero_cex :
    (drawNumber 0 0 7 0 COLOR_WHITE).length ≠ 0 := by
  rw [drawNumber_eq_map]
  simp

/-- C3 (amended: for `length ≥ 1`): every call `drawNumber(x, y, number,
length, color)` issues exactly `length` glyph blits regardless of the
magnitude of `number` (zero and values wider than `length` digits included:
the value is truncated to its least-significant digits); the `k`-th blit
(`k = 0 .. length - 1`) carries the digit `(number / 10 ^ k) % 10` (C
truncated semantics) at horizontal position `x + NUMBER_WIDTH * (length - k)`,
i.e. least-significant digit first, advancing leftward one digit-width per
blit, with no suppression of leading zeros. -/
theorem drawNumber_digit_blits (x y number length color : Int)
    (h : 1 ≤ length) :
    (drawNumber x y number length color).length = length.toNat ∧
    ∀ k : Nat, k < length.toNat →
      (drawNumber x y number length color)[k]? =
        some (RenderOp.blitNumbers
          ⟨NUMBER_WIDTH * ((number.tdiv ((10 : Int) ^ k)).tmod 10),
            NUMBER_HEIGHT * color, NUMBER_WIDTH, NUMBER_HEIGHT⟩
          (x + NUMBER_WIDTH * (length - ((k : Nat) : Int))) y) := by
  have hmax : max length.toNat 1 = length.toNat := by omega
  rw [drawNumber_eq_map, hmax]
  constructor
  · simp
  · intro k hk
    rw [List.getElem?_map]
    simp [List.getElem?_range, hk]

/-- C3 (witness): the scenario `drawNumber(x, y, 7, 3, COLOR_WHITE)` issues
three glyph blits whose digits are `7 / 10 ^ k % 10`, i.e. `[7, 0, 0]`, at
positions `x + NUMBER_WIDTH * (3 - k)`, right to left. -/
theorem drawNumber_digit_blits_witness :
    (1 : Int) ≤ 3 ∧
    ((drawNumber 0 0 7 3 COLOR_WHITE).length = (3 : Int).toNat ∧
    ∀ k : Nat, k < (3 : Int).toNat →
      (drawNumber 0 0 7 3 COLOR_WHITE)[k]? =
        some (RenderOp.blitNumbers
          ⟨NUMBER_WIDTH * (((7 : Int).tdiv ((10 : Int) ^ k)).tmod 10),
            NUMBER_HEIGHT * COLOR_WHITE, NUMBER_WIDTH, NUMBER_HEIGHT⟩
          (0 + NUMBER_WIDTH * (3 - ((k : Nat) : Int))) 0)) :=
  ⟨by norm_num, drawNumber_digit_blits 0 0 7 3 COLOR_WHITE (by norm_num)⟩

/-- C10: for every call `drawNumber(x, y, number, length, color)` the number
of glyph blits issued is `max(length, 1)`, not `length`: with `length ≤ 0`
the do-while body still executes once before the count is tested, so exactly
one blit is issued for degenerate field widths. -/
theorem drawNumber_blit_count (x y number length color : Int) :
    (drawNumber x y number length color).length = max length.toNat 1 := by
  rw [drawNumber_eq_map]
  simp

/-- C8 (counterexample): the one-pixel padding is not baked into the
horizontal stride of the tile atlas: the source rectangle of tile index 1
starts at `TILE_SIZE * 1`, not at `(TILE_SIZE + 1) * 1`. -/
theorem drawTile_stride_cex :
    (tileSrcRect 1 false).x ≠ (TILE_SIZE + 1) * 1 := by
  decide

/-- C8 (amended): every call `drawTile(x, y, tile, isGhost)` issues exactly
one blit, with destination `(x, y)` and a source square of side
`TILE_SIZE + 1` (tile size plus one pixel of padding); the horizontal source
offset is `TILE_SIZE * tile` (stride exactly one tile size, without the
padding), a function of the tile index alone; the vertical offset is selected
by `isGhost` alone, the ghost row lying exactly one tile row
(`TILE_SIZE + 1`) below the normal row. -/
theorem drawTile_one_blit (x y tile : Int) (shadow : Bool) :
    drawTile x y tile shadow =
      [RenderOp.blitTiles
        ⟨TILE_SIZE * tile, if shadow then TILE_SIZE + 1 else 0,
          TILE_SIZE + 1, TILE_SIZE + 1⟩ x y] ∧
    (tileSrcRect tile true).y = (tileSrcRect tile false).y + (TILE_SIZE + 1) ∧
    (tileSrcRect tile shadow).x = TILE_SIZE * tile := by
  refine ⟨?_, by simp [tileSrcRect], rfl⟩
  cases shadow <;> simp [drawTile, tileSrcRect]

/-- C4 (counterexample): with every platform call succeeding except the
audio-asset loads (music and both sound effects fail to load), `init`
returns `ERROR_NONE` — a success status distinct from every failure status —
so the claimed asset-load-failure status is not produced. -/
theorem init_audio_load_cex :
    (init envAudioFail).2 = ErrorCode.ERROR_NONE ∧
    ErrorCode.ERROR_NONE ≠ ErrorCode.ERROR_NO_IMAGES ∧
    ErrorCode.ERROR_NONE ≠ ErrorCode.ERROR_PLATFORM ∧
    ErrorCode.ERROR_NONE ≠ ErrorCode.ERROR_NO_VIDEO := by
  decide

/-- C4 (amended): image-atlas load failures are detected during `init` and
propagate as the distinct `ERROR_NO_IMAGES` status (so the caller never
starts the loop); but audio-asset load failures (the music file or either
sound effect) are not detected: `init` proceeds and returns `ERROR_NONE`
regardless of the music and sound-effect load results. -/
theorem init_asset_failures (e : InitEnv)
    (h1 : e.sdlInitOk = true) (h2 : e.videoOk = true) :
    ((e.tilesOk && e.backOk && e.numbersOk) = false →
      (init e).2 = ErrorCode.ERROR_NO_IMAGES) ∧
    ((e.tilesOk && e.backOk && e.numbersOk) = true → e.mixerOk = true →
      (init e).2 = ErrorCode.ERROR_NONE) := by
  constructor
  · intro h3
    simp [init, h1, h2, h3]
  · intro h3 h4
    simp [init, h1, h2, h3, h4]

/-- C4 (witness): instantiating the amended statement at the environment in
which only the audio assets fail: the image branch is vacuous and the run
returns `ERROR_NONE`. -/
theorem init_asset_failures_witness :
    (init envAudioFail).2 = ErrorCode.ERROR_NONE :=
  (init_asset_failures envAudioFail rfl rfl).2 rfl rfl

/-- C5 (counterexample): a mixer-open failure is not classified distinctly
from the other failures: it yields `ERROR_PLATFORM`, the same status as a
platform-init (`SDL_Init`) failure. -/
theorem init_mixer_status_cex :
    (init envMixerFail).2 = ErrorCode.ERROR_PLATFORM ∧
    (init envSdlFail).2 = ErrorCode.ERROR_PLATFORM := by
  decide

/-- C5 (amended): `init` performs its steps in the specified order — seed the
random generator, initialize the video+audio subsystems, create the Surface,
set the window title, decode the three atlas images, open the audio mixer,
load the music and two sound effects, start the music loop — and each
fallible step aborts initialization at that point; platform-init failure,
video-surface failure, and image-load failure map to three pairwise-distinct
statuses, but a mixer-open failure maps to `ERROR_PLATFORM`, the same status
as a platform-init failure, not a distinct one. -/
theorem init_step_order (e : InitEnv) :
    (e.sdlInitOk = true → e.videoOk = true → e.tilesOk = true →
      e.backOk = true → e.numbersOk = true → e.mixerOk = true →
      init e = ([InitStep.seedRandom, InitStep.sdlInit, InitStep.setVideoMode,
        InitStep.setCaption, InitStep.loadTiles, InitStep.loadBack,
        InitStep.loadNumbers, InitStep.openAudio, InitStep.loadMusic,
        InitStep.loadSoundLine, InitStep.loadSoundDrop, InitStep.playMusic],
        ErrorCode.ERROR_NONE)) ∧
    (e.sdlInitOk = false →
      init e = ([InitStep.seedRandom, InitStep.sdlInit],
        ErrorCode.ERROR_PLATFORM)) ∧
    (e.sdlInitOk = true → e.videoOk = false →
      init e = ([InitStep.seedRandom, InitStep.sdlInit, InitStep.setVideoMode],
        ErrorCode.ERROR_NO_VIDEO)) ∧
    (e.sdlInitOk = true → e.videoOk = true →
      (e.tilesOk && e.backOk && e.numbersOk) = false →
      init e = ([InitStep.seedRandom, InitStep.sdlInit, InitStep.setVideoMode,
        InitStep.setCaption, InitStep.loadTiles, InitStep.loadBack,
        InitStep.loadNumbers], ErrorCode.ERROR_NO_IMAGES)) ∧
    (e.sdlInitOk = true → e.videoOk = true → e.tilesOk = true →
      e.backOk = true → e.numbersOk = true → e.mixerOk = false →
      init e = ([InitStep.seedRandom, InitStep.sdlInit, InitStep.setVideoMode,
        InitStep.setCaption, InitStep.loadTiles, InitStep.loadBack,
        InitStep.loadNumbers, InitStep.openAudio],
        ErrorCode.ERROR_PLATFORM)) ∧
    (ErrorCode.ERROR_PLATFORM ≠ ErrorCode.ERROR_NO_VIDEO ∧
      ErrorCode.ERROR_PLATFORM ≠ ErrorCode.ERROR_NO_IMAGES ∧
      ErrorCode.ERROR_NO_VIDEO ≠ ErrorCode.ERROR_NO_IMAGES) := by
  refine ⟨?_, ?_, ?_, ?_, ?_, by decide⟩ <;>
    · intros
      simp [init, *]

/-- C5 (witness): the success-path instantiation at the environment in which
every platform call succeeds but the audio assets fail to load (which `init`
does not check): the full ordered step trace is executed. -/
theorem init_step_order_witness :
    init envAudioFail =
      ([InitStep.seedRandom, InitStep.sdlInit, InitStep.setVideoMode,
        InitStep.setCaption, InitStep.loadTiles, InitStep.loadBack,
        InitStep.loadNumbers, InitStep.openAudio, InitStep.loadMusic,
        InitStep.loadSoundLine, InitStep.loadSoundDrop, InitStep.playMusic],
        ErrorCode.ERROR_NONE) :=
  (init_step_order envAudioFail).1 rfl rfl rfl rfl rfl rfl

/-- C7: the input mapper converts each drained record independently and in
order: `SDL_QUIT` and the escape key each produce exactly one
`onEventStart(EVENT_QUIT)`; each mapped key-down produces exactly one START
event of its semantic type; key-up of the held-action keys (down, left,
right, and their letter synonyms) produces exactly one END event of the
corresponding type; unmapped keys and other event types produce zero events;
dispatch preserves arrival order, so left-arrow key-down followed by key-up
yields `[START(MOVE_LEFT), END(MOVE_LEFT)]`. -/
theorem processEvents_mapping :
    processEvent RawEvent.quit =
      [GameCall.onEventStart EventType.EVENT_QUIT] ∧
    processEvent (RawEvent.keyDown Key.escape) =
      [GameCall.onEventStart EventType.EVENT_QUIT] ∧
    processEvent (RawEvent.keyDown Key.s) =
      [GameCall.onEventStart EventType.EVENT_MOVE_DOWN] ∧
    processEvent (RawEvent.keyDown Key.down) =
      [GameCall.onEventStart EventType.EVENT_MOVE_DOWN] ∧
    processEvent (RawEvent.keyDown Key.w) =
      [GameCall.onEventStart EventType.EVENT_ROTATE_CW] ∧
    processEvent (RawEvent.keyDown Key.up) =
      [GameCall.onEventStart EventType.EVENT_ROTATE_CW] ∧
    processEvent (RawEvent.keyDown Key.a) =
      [GameCall.onEventStart EventType.EVENT_MOVE_LEFT] ∧
    processEvent (RawEvent.keyDown Key.left) =
      [GameCall.onEventStart EventType.EVENT_MOVE_LEFT] ∧
    processEvent (RawEvent.keyDown Key.d) =
      [GameCall.onEventStart EventType.EVENT_MOVE_RIGHT] ∧
    processEvent (RawEvent.keyDown Key.right) =
      [GameCall.onEventStart EventType.EVENT_MOVE_RIGHT] ∧
    processEvent (RawEvent.keyDown Key.space) =
      [GameCall.onEventStart EventType.EVENT_DROP] ∧
    processEvent (RawEvent.keyDown Key.f5) =
      [GameCall.onEventStart EventType.EVENT_RESTART] ∧
    processEvent (RawEvent.keyDown Key.f1) =
      [GameCall.onEventStart EventType.EVENT_PAUSE] ∧
    processEvent (RawEvent.keyDown Key.f2) =
      [GameCall.onEventStart EventType.EVENT_SHOW_NEXT] ∧
    processEvent (RawEvent.keyDown Key.f3) =
      [GameCall.onEventStart EventType.EVENT_SHOW_SHADOW] ∧
    processEvent (RawEvent.keyUp Key.s) =
      [GameCall.onEventEnd EventType.EVENT_MOVE_DOWN] ∧
    processEvent (RawEvent.keyUp Key.down) =
      [GameCall.onEventEnd EventType.EVENT_MOVE_DOWN] ∧
    processEvent (RawEvent.keyUp Key.a) =
      [GameCall.onEventEnd EventType.EVENT_MOVE_LEFT] ∧
    processEvent (RawEvent.keyUp Key.left) =
      [GameCall.onEventEnd EventType.EVENT_MOVE_LEFT] ∧
    processEvent (RawEvent.keyUp Key.d) =
      [GameCall.onEventEnd EventType.EVENT_MOVE_RIGHT] ∧
    processEvent (RawEvent.keyUp Key.right) =
      [GameCall.onEventEnd EventType.EVENT_MOVE_RIGHT] ∧
    processEvent (RawEvent.keyDown Key.unmapped) = [] ∧
    processEvent (RawEvent.keyUp Key.unmapped) = [] ∧
    processEvent RawEvent.otherEvent = [] ∧
    (∀ (r : RawEvent) (rs : List RawEvent),
      processEvents (r :: rs) = processEvent r ++ processEvents rs) ∧
    processEvents [RawEvent.keyDown Key.left, RawEvent.keyUp Key.left] =
      [GameCall.onEventStart EventType.EVENT_MOVE_LEFT,
        GameCall.onEventEnd EventType.EVENT_MOVE_LEFT] :=
  ⟨rfl, rfl, rfl, rfl, rfl, rfl, rfl, rfl, rfl, rfl, rfl, rfl, rfl, rfl, rfl,
    rfl, rfl, rfl, rfl, rfl, rfl, rfl, rfl, rfl,
    fun r rs => List.flatMap_cons r rs processEvent, rfl⟩

/-- Everything `drawTile` emits copies pixels onto the Surface. -/
theorem isBlit_of_mem_drawTile {op : RenderOp} {x y t : Int} {s : Bool}
    (h : op ∈ drawTile x y t s) : op.isBlit = true := by
  simp only [drawTile, List.mem_singleton] at h
  subst h
  rfl

/-- A cell loop emits only Surface-writing operations when each iteration
does. -/
theorem isBlit_of_mem_forLoop {n : Nat} {f : Nat → List RenderOp}
    (hf : ∀ i, ∀ op ∈ f i, op.isBlit = true) :
    ∀ op ∈ forLoop n f, op.isBlit = true := by
  intro op hop
  simp only [forLoop, List.mem_flatMap] at hop
  obtain ⟨i, _, hi⟩ := hop
  exact hf i op hi

/-- Everything the preview pass emits copies pixels onto the Surface. -/
theorem isBlit_of_mem_previewOps (g : GameState) :
    ∀ op ∈ previewOps g, op.isBlit = true := by
  refine isBlit_of_mem_forLoop ?_
  intro i
  refine isBlit_of_mem_forLoop ?_
  intro j op hop
  split at hop
  · exact isBlit_of_mem_drawTile hop
  · simp at hop

/-- Everything the ghost pass emits copies pixels onto the Surface. -/
theorem isBlit_of_mem_ghostOps (g : GameState) :
    ∀ op ∈ ghostOps g, op.isBlit = true := by
  refine isBlit_of_mem_forLoop ?_
  intro i
  refine isBlit_of_mem_forLoop ?_
  intro j op hop
  split at hop
  · exact isBlit_of_mem_drawTile hop
  · simp at hop

/-- Everything the board pass emits copies pixels onto the Surface. -/
theorem isBlit_of_mem_boardOps (g : GameState) :
    ∀ op ∈ boardOps g, op.isBlit = true := by
  refine isBlit_of_mem_forLoop ?_
  intro i
  refine isBlit_of_mem_forLoop ?_
  intro j op hop
  split at hop
  · exact isBlit_of_mem_drawTile hop
  · simp at hop

/-- Everything the falling-piece pass emits copies pixels onto the Surface. -/
theorem isBlit_of_mem_fallingOps (g : GameState) :
    ∀ op ∈ fallingOps g, op.isBlit = true := by
  refine isBlit_of_mem_forLoop ?_
  intro i
  refine isBlit_of_mem_forLoop ?_
  intro j op hop
  split at hop
  · exact isBlit_of_mem_drawTile hop
  · simp at hop

/-- Everything `drawNumber` emits copies pixels onto the Surface. -/
theorem isBlit_of_mem_drawNumber {op : RenderOp} {x y n len c : Int}
    (h : op ∈ drawNumber x y n len c) : op.isBlit = true := by
  rw [drawNumber_eq_map] at h
  simp only [List.mem_map] at h
  obtain ⟨k, _, hk⟩ := h
  rw [← hk]
  rfl

/-- Concatenation preserves the all-blits property. -/
theorem isBlit_append {l₁ l₂ : List RenderOp}
    (h₁ : ∀ op ∈ l₁, op.isBlit = true) (h₂ : ∀ op ∈ l₂, op.isBlit = true) :
    ∀ op ∈ l₁ ++ l₂, op.isBlit = true := by
  intro op hop
  rcases List.mem_append.mp hop with h | h
  · exact h₁ op h
  · exact h₂ op h

/-- A guarded pass preserves the all-blits property. -/
theorem isBlit_ite {c : Prop} [Decidable c] {l : List RenderOp}
    (h : ∀ op ∈ l, op.isBlit = true) :
    ∀ op ∈ (if c then l else []), op.isBlit = true := by
  split
  · exact h
  · intro op hop
    simp at hop

/-- A negatively guarded pass preserves the all-blits property. -/
theorem isBlit_ite_neg {c : Prop} [Decidable c] {l : List RenderOp}
    (h : ∀ op ∈ l, op.isBlit = true) :
    ∀ op ∈ (if c then [] else l), op.isBlit = true := by
  split
  · intro op hop
    simp at hop
  · exact h

/-- The background blit copies pixels onto the Surface. -/
theorem isBlit_back_singleton : ∀ op ∈ [RenderOp.blitBack], op.isBlit = true := by
  intro op hop
  simp only [List.mem_singleton] at hop
  subst hop
  rfl

/-- Everything the HUD pass emits copies pixels onto the Surface. -/
theorem isBlit_of_mem_hudOps (g : GameState) :
    ∀ op ∈ hudOps g, op.isBlit = true := by
  have hd : ∀ (x y n len c : Int), ∀ op ∈ drawNumber x y n len c,
      op.isBlit = true := fun x y n len c op h => isBlit_of_mem_drawNumber h
  simp only [hudOps]
  exact isBlit_append (isBlit_append (isBlit_append (isBlit_append
    (isBlit_append (isBlit_append (isBlit_append (isBlit_append
      (isBlit_append (isBlit_append (hd _ _ _ _ _) (hd _ _ _ _ _))
        (hd _ _ _ _ _)) (hd _ _ _ _ _)) (hd _ _ _ _ _)) (hd _ _ _ _ _))
          (hd _ _ _ _ _)) (hd _ _ _ _ _)) (hd _ _ _ _ _)) (hd _ _ _ _ _))
            (hd _ _ _ _ _)

/-- A Surface-writing operation is not the acknowledgment. -/
theorem isAck_eq_false_of_isBlit {op : RenderOp} (h : op.isBlit = true) :
    op.isAck = false := by
  cases op <;> simp_all [RenderOp.isBlit, RenderOp.isAck]

/-- A Surface-writing operation is not the buffer flip. -/
theorem isFlip_eq_false_of_isBlit {op : RenderOp} (h : op.isBlit = true) :
    op.isFlip = false := by
  cases op <;> simp_all [RenderOp.isBlit, RenderOp.isFlip]

/-- Everything in the drawing prefix copies pixels onto the Surface. -/
theorem isBlit_of_mem_drawPrefix (g : GameState) :
    ∀ op ∈ drawPrefix g, op.isBlit = true := by
  simp only [drawPrefix]
  exact isBlit_append (isBlit_append (isBlit_append (isBlit_append
    (isBlit_append isBlit_back_singleton
      (isBlit_ite (isBlit_of_mem_previewOps g)))
        (isBlit_ite (isBlit_of_mem_ghostOps g)))
          (isBlit_of_mem_boardOps g)) (isBlit_of_mem_fallingOps g))
            (isBlit_ite_neg (isBlit_of_mem_hudOps g))

/-- A changed-state pass is the drawing prefix, then the acknowledgment, the
flip and the sleep. -/
theorem renderGame_changed_eq (g : GameState) (h : g.hasChanged = true) :
    renderGame g = drawPrefix g ++
      [RenderOp.onChangeProcessed, RenderOp.flip, RenderOp.delay SLEEP_TIME] := by
  simp [renderGame, drawPrefix, h, List.append_assoc]

/-- C1: in every `renderGame` invocation for which the Engine reports no
change, no blit is issued, no flip is issued, `onChangeProcessed` is not
called, and the whole emitted trace is the single fixed-duration sleep (so
the Surface, written only through blits and flips, is left unchanged); over
`N` consecutive unchanged iterations the combined trace has zero blits, zero
flips, zero acknowledgments, and exactly `N` sleeps of the fixed delay. -/
theorem renderGame_unchanged_idle (gs : List GameState)
    (h : ∀ g ∈ gs, g.hasChanged = false) :
    (∀ g ∈ gs, renderGame g = [RenderOp.delay SLEEP_TIME]) ∧
    gs.flatMap renderGame =
      List.replicate gs.length (RenderOp.delay SLEEP_TIME) ∧
    (gs.flatMap renderGame).countP RenderOp.isBlit = 0 ∧
    (gs.flatMap renderGame).countP RenderOp.isFlip = 0 ∧
    (gs.flatMap renderGame).countP RenderOp.isAck = 0 ∧
    (gs.flatMap renderGame).countP RenderOp.isDelay = gs.length := by
  have hone : ∀ g ∈ gs, renderGame g = [RenderOp.delay SLEEP_TIME] := by
    intro g hg
    simp [renderGame, h g hg]
  have hrep : ∀ (l : List GameState),
      (∀ g ∈ l, renderGame g = [RenderOp.delay SLEEP_TIME]) →
      l.flatMap renderGame =
        List.replicate l.length (RenderOp.delay SLEEP_TIME) := by
    intro l
    induction l with
    | nil => intro _; rfl
    | cons a t ih =>
      intro h2
      rw [List.flatMap_cons, h2 a (List.mem_cons_self a t),
        ih (fun g hg => h2 g (List.mem_cons_of_mem a hg)),
        List.length_cons, List.replicate_succ]
      rfl
  have hr := hrep gs hone
  refine ⟨hone, hr, ?_, ?_, ?_, ?_⟩
  · rw [hr]
    refine List.countP_eq_zero.mpr ?_
    intro a ha
    rw [List.eq_of_mem_replicate ha]
    simp [RenderOp.isBlit]
  · rw [hr]
    refine List.countP_eq_zero.mpr ?_
    intro a ha
    rw [List.eq_of_mem_replicate ha]
    simp [RenderOp.isFlip]
  · rw [hr]
    refine List.countP_eq_zero.mpr ?_
    intro a ha
    rw [List.eq_of_mem_replicate ha]
    simp [RenderOp.isAck]
  · rw [hr]
    have hall : ∀ a ∈ List.replicate gs.length (RenderOp.delay SLEEP_TIME),
        RenderOp.isDelay a = true := by
      intro a ha
      rw [List.eq_of_mem_replicate ha]
      rfl
    rw [List.countP_eq_length.mpr hall, List.length_replicate]

/-- C1 (witness): ten consecutive iterations on a concrete unchanged state
produce zero blits, zero flips, zero acknowledgments, and ten sleeps. -/
theorem renderGame_unchanged_idle_witness :
    (∀ g ∈ List.replicate 10 sampleIdle, g.hasChanged = false) ∧
    ((∀ g ∈ List.replicate 10 sampleIdle,
        renderGame g = [RenderOp.delay SLEEP_TIME]) ∧
      (List.replicate 10 sampleIdle).flatMap renderGame =
        List.replicate (List.replicate 10 sampleIdle).length
          (RenderOp.delay SLEEP_TIME) ∧
      ((List.replicate 10 sampleIdle).flatMap renderGame).countP
        RenderOp.isBlit = 0 ∧
      ((List.replicate 10 sampleIdle).flatMap renderGame).countP
        RenderOp.isFlip = 0 ∧
      ((List.replicate 10 sampleIdle).flatMap renderGame).countP
        RenderOp.isAck = 0 ∧
      ((List.replicate 10 sampleIdle).flatMap renderGame).countP
        RenderOp.isDelay = (List.replicate 10 sampleIdle).length) := by
  have hyp : ∀ g ∈ List.replicate 10 sampleIdle, g.hasChanged = false := by
    intro g hg
    rw [List.eq_of_mem_replicate hg]
    rfl
  exact ⟨hyp, renderGame_unchanged_idle (List.replicate 10 sampleIdle) hyp⟩

/-- C2: in every `renderGame` invocation for which the Engine reports a
change, exactly one `onChangeProcessed` call occurs and exactly one buffer
flip occurs, and the emitted trace is a prefix consisting entirely of blits,
followed by the acknowledgment, then the flip (then the sleep): the
acknowledgment comes after every blit of the frame and before the flip. -/
theorem renderGame_ack_order (g : GameState) (h : g.hasChanged = true) :
    (renderGame g).countP RenderOp.isAck = 1 ∧
    (renderGame g).countP RenderOp.isFlip = 1 ∧
    ∃ ds, renderGame g =
        ds ++ [RenderOp.onChangeProcessed, RenderOp.flip,
          RenderOp.delay SLEEP_TIME] ∧
      ∀ op ∈ ds, op.isBlit = true := by
  have heq := renderGame_changed_eq g h
  have hzero_ack : (drawPrefix g).countP RenderOp.isAck = 0 :=
    List.countP_eq_zero.mpr fun a ha => by
      simp [isAck_eq_false_of_isBlit (isBlit_of_mem_drawPrefix g a ha)]
  have hzero_flip : (drawPrefix g).countP RenderOp.isFlip = 0 :=
    List.countP_eq_zero.mpr fun a ha => by
      simp [isFlip_eq_false_of_isBlit (isBlit_of_mem_drawPrefix g a ha)]
  refine ⟨?_, ?_, drawPrefix g, heq, isBlit_of_mem_drawPrefix g⟩
  · rw [heq, List.countP_append, hzero_ack]
    rfl
  · rw [heq, List.countP_append, hzero_flip]
    rfl

/-- C2 (witness): instantiation at a concrete changed state. -/
theorem renderGame_ack_order_witness :
    sampleActive.hasChanged = true ∧
    ((renderGame sampleActive).countP RenderOp.isAck = 1 ∧
      (renderGame sampleActive).countP RenderOp.isFlip = 1 ∧
      ∃ ds, renderGame sampleActive =
          ds ++ [RenderOp.onChangeProcessed, RenderOp.flip,
            RenderOp.delay SLEEP_TIME] ∧
        ∀ op ∈ ds, op.isBlit = true) :=
  ⟨rfl, renderGame_ack_order sampleActive rfl⟩

/-- C6: in each cell pass of a rendering run (preview, ghost, board, falling
piece), a cell whose value is the EMPTY sentinel contributes no operation,
and a non-empty cell contributes exactly one blit whose source rectangle is
`tileSrcRect` of that cell's tile identifier and the pass's ghost/non-ghost
mode alone. -/
theorem renderGame_cell_policy (g : GameState) :
    previewOps g =
      (forLoop TETROMINO_SIZE fun i => forLoop TETROMINO_SIZE fun j =>
        if g.nextBlock.cells i j = EMPTY_CELL then []
        else [RenderOp.blitTiles (tileSrcRect (g.nextBlock.cells i j) false)
          (PREVIEW_X + TILE_SIZE * (i : Int))
          (PREVIEW_Y + TILE_SIZE * (j : Int))]) ∧
    ghostOps g =
      (forLoop TETROMINO_SIZE fun i => forLoop TETROMINO_SIZE fun j =>
        if g.fallingBlock.cells i j = EMPTY_CELL then []
        else [RenderOp.blitTiles (tileSrcRect (g.fallingBlock.cells i j) true)
          (BOARD_X + TILE_SIZE * (g.fallingBlock.x + (i : Int)))
          (BOARD_Y + TILE_SIZE *
            (g.fallingBlock.y + g.shadowGap + (j : Int)))]) ∧
    boardOps g =
      (forLoop BOARD_TILEMAP_WIDTH fun i =>
        forLoop BOARD_TILEMAP_HEIGHT fun j =>
        if g.getCell i j = EMPTY_CELL then []
        else [RenderOp.blitTiles (tileSrcRect (g.getCell i j) false)
          (BOARD_X + TILE_SIZE * (i : Int))
          (BOARD_Y + TILE_SIZE * (j : Int))]) ∧
    fallingOps g =
      (forLoop TETROMINO_SIZE fun i => forLoop TETROMINO_SIZE fun j =>
        if g.fallingBlock.cells i j = EMPTY_CELL then []
        else [RenderOp.blitTiles (tileSrcRect (g.fallingBlock.cells i j) false)
          (BOARD_X + TILE_SIZE * (g.fallingBlock.x + (i : Int)))
          (BOARD_Y + TILE_SIZE * (g.fallingBlock.y + (j : Int)))]) := by
  refine ⟨?_, ?_, ?_, ?_⟩ <;>
    simp only [previewOps, ghostOps, boardOps, fallingOps, drawTile, ne_eq,
      ite_not]

/-- C9: in every changed-state rendering pass the draw operations occur in
this order: the full background first; then the preview grid only if
`showPreview`; then the ghost piece only if `showShadow` holds and
`shadowGap` is strictly positive, each of its non-empty cells offset
vertically by that gap and drawn in ghost mode; then the board cells; then
the falling piece at its actual position, after the board; then the HUD
numerals — level, lines, score, the seven per-shape placed counts each with
its fixed color, and the total piece count — if and only if the game is not
paused; and finally the acknowledgment, the flip and the sleep. -/
theorem renderGame_draw_order (g : GameState) (h : g.hasChanged = true) :
    renderGame g =
      [RenderOp.blitBack] ++
      (if g.showPreview then previewOps g else []) ++
      (if g.showShadow ∧ 0 < g.shadowGap then
        (forLoop TETROMINO_SIZE fun i => forLoop TETROMINO_SIZE fun j =>
          if g.fallingBlock.cells i j ≠ EMPTY_CELL then
            drawTile (BOARD_X + TILE_SIZE * (g.fallingBlock.x + (i : Int)))
              (BOARD_Y + TILE_SIZE *
                (g.fallingBlock.y + g.shadowGap + (j : Int)))
              (g.fallingBlock.cells i j) true
          else [])
      else []) ++
      boardOps g ++ fallingOps g ++
      (if g.isPaused then []
       else
        drawNumber LEVEL_X LEVEL_Y g.stats.level LEVEL_LENGTH COLOR_WHITE ++
        drawNumber LINES_X LINES_Y g.stats.lines LINES_LENGTH COLOR_WHITE ++
        drawNumber SCORE_X SCORE_Y g.stats.score SCORE_LENGTH COLOR_WHITE ++
        drawNumber TETROMINO_X TETROMINO_L_Y (g.stats.pieces Tetromino.L)
          TETROMINO_LENGTH COLOR_ORANGE ++
        drawNumber TETROMINO_X TETROMINO_I_Y (g.stats.pieces Tetromino.I)
          TETROMINO_LENGTH COLOR_CYAN ++
        drawNumber TETROMINO_X TETROMINO_T_Y (g.stats.pieces Tetromino.T)
          TETROMINO_LENGTH COLOR_PURPLE ++
        drawNumber TETROMINO_X TETROMINO_S_Y (g.stats.pieces Tetromino.S)
          TETROMINO_LENGTH COLOR_GREEN ++
        drawNumber TETROMINO_X TETROMINO_Z_Y (g.stats.pieces Tetromino.Z)
          TETROMINO_LENGTH COLOR_RED ++
        drawNumber TETROMINO_X TETROMINO_O_Y (g.stats.pieces Tetromino.O)
          TETROMINO_LENGTH COLOR_YELLOW ++
        drawNumber TETROMINO_X TETROMINO_J_Y (g.stats.pieces Tetromino.J)
          TETROMINO_LENGTH COLOR_BLUE ++
        drawNumber PIECES_X PIECES_Y g.stats.totalPieces PIECES_LENGTH
          COLOR_WHITE) ++
      [RenderOp.onChangeProcessed, RenderOp.flip,
        RenderOp.delay SLEEP_TIME] := by
  simp [renderGame, ghostOps, hudOps, h, List.append_assoc]

/-- C9 (witness): instantiation at a concrete changed state. -/
theorem renderGame_draw_order_witness :
    sampleActive.hasChanged = true ∧
    renderGame sampleActive =
      [RenderOp.blitBack] ++
      (if sampleActive.showPreview then previewOps sampleActive else []) ++
      (if sampleActive.showShadow ∧ 0 < sampleActive.shadowGap then
        (forLoop TETROMINO_SIZE fun i => forLoop TETROMINO_SIZE fun j =>
          if sampleActive.fallingBlock.cells i j ≠ EMPTY_CELL then
            drawTile
              (BOARD_X + TILE_SIZE *
                (sampleActive.fallingBlock.x + (i : Int)))
              (BOARD_Y + TILE_SIZE *
                (sampleActive.fallingBlock.y + sampleActive.shadowGap +
                  (j : Int)))
              (sampleActive.fallingBlock.cells i j) true
          else [])
      else []) ++
      boardOps sampleActive ++ fallingOps sampleActive ++
      (if sampleActive.isPaused then []
       else
        drawNumber LEVEL_X LEVEL_Y sampleActive.stats.level LEVEL_LENGTH
          COLOR_WHITE ++
        drawNumber LINES_X LINES_Y sampleActive.stats.lines LINES_LENGTH
          COLOR_WHITE ++
        drawNumber SCORE_X SCORE_Y sampleActive.stats.score SCORE_LENGTH
          COLOR_WHITE ++
        drawNumber TETROMINO_X TETROMINO_L_Y
          (sampleActive.stats.pieces Tetromino.L) TETROMINO_LENGTH
          COLOR_ORANGE ++
        drawNumber TETROMINO_X TETROMINO_I_Y
          (sampleActive.stats.pieces Tetromino.I) TETROMINO_LENGTH
          COLOR_CYAN ++
        drawNumber TETROMINO_X TETROMINO_T_Y
          (sampleActive.stats.pieces Tetromino.T) TETROMINO_LENGTH
          COLOR_PURPLE ++
        drawNumber TETROMINO_X TETROMINO_S_Y
          (sampleActive.stats.pieces Tetromino.S) TETROMINO_LENGTH
          COLOR_GREEN ++
        drawNumber TETROMINO_X TETROMINO_Z_Y
          (sampleActive.stats.pieces Tetromino.Z) TETROMINO_LENGTH
          COLOR_RED ++
        drawNumber TETROMINO_X TETROMINO_O_Y
          (sampleActive.stats.pieces Tetromino.O) TETROMINO_LENGTH
          COLOR_YELLOW ++
        drawNumber TETROMINO_X TETROMINO_J_Y
          (sampleActive.stats.pieces Tetromino.J) TETROMINO_LENGTH
          COLOR_BLUE ++
        drawNumber PIECES_X PIECES_Y sampleActive.stats.totalPieces
          PIECES_LENGTH COLOR_WHITE) ++
      [RenderOp.onChangeProcessed, RenderOp.flip,
        RenderOp.delay SLEEP_TIME] :=
  ⟨rfl, renderGame_draw_order sampleActive rfl⟩

end Stc
